import Mathlib

/-!
Verification of the invest-pilot order-intent translation layer.

The repository exposes brokerage trading tools through two entry points:
the modular handlers in `src/src/brokers/alpaca/tools/orders.py` (driven by
`src/src/main.py`) and the legacy monolithic server `alpaca_mcp_server.py`.
Each tool handler validates and normalizes its arguments, builds a brokerage
order request, hands it to the brokerage client, and renders the outcome as a
response string.

The embedding below is shallow: every handler becomes a pure function from
its arguments and an oracle describing the brokerage's answers to a pair of
the produced response and the list of brokerage calls performed.  Prices and
quantities are rationals.  Python exceptions that the handlers catch are
modelled with `Except`; the distinct `except` branches of a handler appear as
the constructors of `ToolResponse`.
-/

namespace InvestPilot

/-- Order side enum of the brokerage SDK; the code uses only BUY and SELL. -/
inductive OrderSide
  | BUY
  | SELL
deriving DecidableEq, Repr

/-- Time-in-force enum; the code only ever selects DAY or GTC. -/
inductive TimeInForce
  | DAY
  | GTC
deriving DecidableEq, Repr

/-- Order class enum values the code sets on composite orders. -/
inductive OrderClass
  | BRACKET
  | OCO
  | OTO
deriving DecidableEq, Repr

/-- Status filter enum for order queries. -/
inductive QueryOrderStatus
  | OPEN
  | CLOSED
  | ALL
deriving DecidableEq, Repr

/-- TakeProfitRequest of the SDK: carries the limit price passed by the code. -/
structure TakeProfitRequest where
  limit_price : Option ℚ
deriving DecidableEq, Repr

/-- StopLossRequest of the SDK: stop price plus optional stop-limit price. -/
structure StopLossRequest where
  stop_price : Option ℚ
  limit_price : Option ℚ := none
deriving DecidableEq, Repr

/-- The brokerage order request the handlers build.  The SDK's
MarketOrderRequest, LimitOrderRequest and TrailingStopOrderRequest are one
base shape with different fields populated; a field the code does not pass
stays `none`. -/
structure OrderRequest where
  symbol : String
  qty : ℚ
  side : OrderSide
  time_in_force : TimeInForce
  order_class : Option OrderClass := none
  limit_price : Option ℚ := none
  take_profit : Option TakeProfitRequest := none
  stop_loss : Option StopLossRequest := none
  trail_price : Option ℚ := none
  trail_percent : Option ℚ := none
deriving DecidableEq, Repr

/-- The APIError the client wrapper raises, reduced to its message text. -/
structure APIError where
  message : String
deriving DecidableEq, Repr

/-- An order record returned by the brokerage, reduced to the fields the
handlers render into responses. -/
structure Order where
  id : String
  symbol : String
  qty : ℚ
  side : String
  status : String
  order_type : String
  order_class : String
  time_in_force : String
  submitted_at : String
  limit_price : ℚ := 0
deriving DecidableEq, Repr

/-- An open position, reduced to the fields take_partial_profit reads.
unrealized_plpc is the brokerage-reported unrealized P/L fraction; the
brokerage may omit it. -/
structure Position where
  symbol : String
  qty : ℚ
  unrealized_plpc : Option ℚ
deriving DecidableEq, Repr

/-- One call the handler makes on the brokerage client, with its payload. -/
inductive BrokerCall
  | getOrders (status : QueryOrderStatus) (limit : ℕ)
  | submitOrder (req : OrderRequest)
  | cancelAllOrders
  | getAllPositions
  | closePosition (symbol : String) (percentage : ℚ)
  | getOpenPosition (symbol : String)
deriving DecidableEq, Repr

/-- A tool response: the constructors mirror the return sites of a handler
(normal return, and the ValueError / APIError / generic except branches).
The carried text is the full response string. -/
inductive ToolResponse
  | success (text : String)
  | validationError (text : String)
  | apiError (text : String)
  | unexpectedError (text : String)
deriving DecidableEq, Repr

/-- The response string handed back through the tool protocol. -/
def ToolResponse.text : ToolResponse → String
  | .success t => t
  | .validationError t => t
  | .apiError t => t
  | .unexpectedError t => t

/-- Whether the response came from the ValueError branch of a handler. -/
def ToolResponse.isValidationError : ToolResponse → Bool
  | .validationError _ => true
  | _ => false

/-- Whether the response reports any failure at all. -/
def ToolResponse.isError : ToolResponse → Bool
  | .success _ => false
  | _ => true

/-- Python str.lower over the character list. -/
def pyLower (s : String) : String := ⟨s.data.map Char.toLower⟩

/-- Python str.upper over the character list. -/
def pyUpper (s : String) : String := ⟨s.data.map Char.toUpper⟩

/-- q scaled by `scale` and rounded to the nearest integer, halves up:
⌊q * scale + 1/2⌋ computed on the numerator and denominator.  Python formats
binary floats with round-half-even; no claim depends on tie behavior, so
exact decimal inputs agree. -/
def roundScaled (q : ℚ) (scale : ℤ) : ℤ :=
  Int.fdiv (2 * scale * q.num + (q.den : ℤ)) (2 * (q.den : ℤ))

/-- Render a count of hundredths as a fixed two-decimal number. -/
def fmtCents (c : ℤ) : String :=
  let sign := if c < 0 then "-" else ""
  let a : ℕ := c.natAbs
  let frac := a % 100
  sign ++ toString (a / 100) ++ "." ++ (if frac < 10 then "0" ++ toString frac else toString frac)

/-- Fixed two-decimal rendering of a rational, as in the sources {x:.2f}. -/
def fmtFixed2 (q : ℚ) : String := fmtCents (roundScaled q 100)

/-- Percent rendering, as in the sources {x:.2%} (equally {x * 100:.2f}%). -/
def fmtPercent2 (q : ℚ) : String := fmtCents (roundScaled q 10000) ++ "%"

/-- Plain rendering of a rational where the source interpolates the raw
number. -/
def ratStr (q : ℚ) : String :=
  if q.den = 1 then toString q.num else toString q.num ++ "/" ++ toString q.den

/-- Python truthiness of an optional numeric argument: None and 0 are falsy. -/
def truthy (x : Option ℚ) : Bool :=
  match x with
  | none => false
  | some v => v != 0

/-- Whether `pat` starts the character list. -/
def startsWithChars : List Char → List Char → Bool
  | [], _ => true
  | _ :: _, [] => false
  | a :: as, b :: bs => a == b && startsWithChars as bs

/-- Whether `pat` occurs anywhere in the character list. -/
def hasSubChars (pat : List Char) : List Char → Bool
  | [] => startsWithChars pat []
  | l@(_ :: rest) => startsWithChars pat l || hasSubChars pat rest

/-- Whether pat occurs in s, as the Python `pat in s` test. -/
def containsSubstr (s pat : String) : Bool := hasSubChars pat.data s.data

/-- The ValueError message of get_order_side. -/
def invalid_side_message (side : String) : String :=
  "Invalid order side: '" ++ side ++ "'. Must be 'buy' or 'sell'."

/-- From src/src/core/utils.py get_order_side: lowercase the side and map it
to the enum; anything else raises ValueError (modelled as `Except.error`
carrying the message). -/
def get_order_side (side : String) : Except String OrderSide :=
  let side_lower := pyLower side
  if side_lower = "buy" then .ok OrderSide.BUY
  else if side_lower = "sell" then .ok OrderSide.SELL
  else .error (invalid_side_message side)

/-- From src/src/core/utils.py format_currency. -/
def format_currency (amount : ℚ) : String := "$" ++ fmtFixed2 amount

/-- From src/src/core/utils.py format_percentage: {value * 100:.2f}%. -/
def format_percentage (value : ℚ) : String := fmtCents (roundScaled value 10000) ++ "%"

/-- The repeated time-in-force conversion of the advanced-order handlers:
`arguments.get("time_in_force", default).upper()`, then GTC iff the result is
the string GTC, otherwise DAY. -/
def tif_from (default0 : String) (time_in_force0 : Option String) : TimeInForce :=
  if pyUpper (time_in_force0.getD default0) == "GTC" then TimeInForce.GTC else TimeInForce.DAY

/-- From orders.py handle_get_orders.  The response models the message field
of the JSON payload; the serialized per-order rows are formatting only and
elided. -/
def handle_get_orders (status0 : Option String) (limit0 : Option ℕ)
    (ordersResult : Except APIError (List Order)) : ToolResponse × List BrokerCall :=
  let status_str := pyLower (status0.getD "all")
  let limit := limit0.getD 10
  let status :=
    if status_str = "open" then QueryOrderStatus.OPEN
    else if status_str = "closed" then QueryOrderStatus.CLOSED
    else QueryOrderStatus.ALL
  match ordersResult with
  | .error e => (.apiError ("Error getting orders: " ++ e.message), [.getOrders status limit])
  | .ok orders =>
      if orders.isEmpty then
        (.success ("No " ++ status_str ++ " orders found."), [.getOrders status limit])
      else
        (.success ("Found " ++ toString orders.length ++ " " ++ status_str ++ " orders"),
         [.getOrders status limit])

/-- The success text of handle_place_market_order. -/
def market_success_response (order : Order) : String :=
  "Market order placed successfully:\n- Order ID: " ++ order.id
    ++ "\n- Symbol: " ++ order.symbol
    ++ "\n- Side: " ++ order.side
    ++ "\n- Quantity: " ++ ratStr order.qty
    ++ "\n- Status: " ++ order.status
    ++ "\n- Submitted At: " ++ order.submitted_at

/-- From orders.py handle_place_market_order: uppercase the symbol, convert
the side (ValueError turns into the validation response before any client
call), build a DAY market request and submit it. -/
def handle_place_market_order (symbol0 side0 : String) (quantity : ℚ)
    (submitResult : Except APIError Order) : ToolResponse × List BrokerCall :=
  let symbol := pyUpper symbol0
  match get_order_side side0 with
  | .error msg => (.validationError ("Invalid parameters: " ++ msg), [])
  | .ok side =>
      let order_request : OrderRequest :=
        { symbol := symbol, qty := quantity, side := side, time_in_force := TimeInForce.DAY }
      match submitResult with
      | .error e =>
          (.apiError ("Error placing market order: " ++ e.message), [.submitOrder order_request])
      | .ok order => (.success (market_success_response order), [.submitOrder order_request])

/-- The success text of handle_place_limit_order. -/
def limit_success_response (order : Order) : String :=
  "Limit order placed successfully:\n- Order ID: " ++ order.id
    ++ "\n- Symbol: " ++ order.symbol
    ++ "\n- Side: " ++ order.side
    ++ "\n- Quantity: " ++ ratStr order.qty
    ++ "\n- Limit Price: " ++ format_currency order.limit_price
    ++ "\n- Status: " ++ order.status
    ++ "\n- Submitted At: " ++ order.submitted_at

/-- From orders.py handle_place_limit_order. -/
def handle_place_limit_order (symbol0 side0 : String) (quantity limit_price : ℚ)
    (submitResult : Except APIError Order) : ToolResponse × List BrokerCall :=
  let symbol := pyUpper symbol0
  match get_order_side side0 with
  | .error msg => (.validationError ("Invalid parameters: " ++ msg), [])
  | .ok side =>
      let order_request : OrderRequest :=
        { symbol := symbol, qty := quantity, side := side, limit_price := some limit_price,
          time_in_force := TimeInForce.DAY }
      match submitResult with
      | .error e =>
          (.apiError ("Error placing limit order: " ++ e.message), [.submitOrder order_request])
      | .ok order => (.success (limit_success_response order), [.submitOrder order_request])

/-- From orders.py handle_cancel_all_orders: an empty result list answers the
no-orders message; otherwise the count plus one summary line per order. -/
def handle_cancel_all_orders (cancelResult : Except APIError (List Order)) :
    ToolResponse × List BrokerCall :=
  match cancelResult with
  | .error e => (.apiError ("Error cancelling orders: " ++ e.message), [.cancelAllOrders])
  | .ok cancelled_orders =>
      if cancelled_orders.isEmpty then
        (.success "No orders to cancel.", [.cancelAllOrders])
      else
        (.success ("Successfully cancelled " ++ toString cancelled_orders.length ++ " orders:\n"
          ++ String.join (cancelled_orders.map (fun order =>
              "- " ++ order.symbol ++ " " ++ order.side ++ " " ++ ratStr order.qty
                ++ " (Order ID: " ++ order.id ++ ")\n"))),
         [.cancelAllOrders])

/-- The not-found response of handle_take_partial_profit. -/
def tpp_not_found_response (symbol : String) : String :=
  "No position found for symbol " ++ symbol ++ "."

/-- The no-action response of handle_take_partial_profit. -/
def tpp_below_threshold_response (symbol : String) (unrealized_plpc profit_threshold : ℚ) :
    String :=
  "Position for " ++ symbol ++ " does not meet profit threshold:\n- Current profit: "
    ++ fmtPercent2 unrealized_plpc
    ++ "\n- Required threshold: " ++ fmtPercent2 profit_threshold
    ++ "\n- No action taken."

/-- The success response of handle_take_partial_profit. -/
def tpp_success_response (symbol : String)
    (unrealized_plpc profit_threshold close_percentage : ℚ) (result : Order) : String :=
  "Partial profit taken for " ++ symbol
    ++ ":\n- Profit percentage: " ++ fmtPercent2 unrealized_plpc
    ++ "\n- Threshold met: " ++ fmtPercent2 profit_threshold
    ++ "\n- Closed percentage: " ++ fmtPercent2 close_percentage
    ++ "\n- Order ID: " ++ result.id
    ++ "\n- Status: " ++ result.status

/-- The position-lookup loop of handle_take_partial_profit: first list entry
whose symbol matches. -/
def findPosition (positions : List Position) (symbol : String) : Option Position :=
  positions.find? (fun pos => pos.symbol == symbol)

/-- From orders.py handle_take_partial_profit: uppercase the symbol, fetch all
positions and scan for the symbol; a missing position answers the not-found
message; `float(position.unrealized_plpc or 0)` defaults a missing field to 0;
strictly below the threshold reports and stops, otherwise a close-position
request for close_percentage (passed through as given) is submitted.  The
argument defaults are those of `arguments.get`. -/
def handle_take_partial_profit (symbol0 : String)
    (profit_threshold0 close_percentage0 : Option ℚ)
    (positionsResult : Except APIError (List Position))
    (closeResult : Except APIError Order) : ToolResponse × List BrokerCall :=
  let symbol := pyUpper symbol0
  let profit_threshold := profit_threshold0.getD (Rat.mk' 1 5)
  let close_percentage := close_percentage0.getD (Rat.mk' 1 2)
  match positionsResult with
  | .error e => (.apiError ("Error taking partial profit: " ++ e.message), [.getAllPositions])
  | .ok positions =>
      match findPosition positions symbol with
      | none => (.success (tpp_not_found_response symbol), [.getAllPositions])
      | some position =>
          let unrealized_plpc := position.unrealized_plpc.getD 0
          if unrealized_plpc < profit_threshold then
            (.success (tpp_below_threshold_response symbol unrealized_plpc profit_threshold),
             [.getAllPositions])
          else
            match closeResult with
            | .error e =>
                (.apiError ("Error taking partial profit: " ++ e.message),
                 [.getAllPositions, .closePosition symbol close_percentage])
            | .ok result =>
                (.success (tpp_success_response symbol unrealized_plpc profit_threshold
                    close_percentage result),
                 [.getAllPositions, .closePosition symbol close_percentage])

/-- The success text of handle_place_bracket_order, with its two conditional
tail lines. -/
def bracket_success_response (order : Order) (take_profit_price stop_loss_price : ℚ)
    (limit_price stop_loss_limit_price : Option ℚ) : String :=
  "Bracket order placed successfully:\n- Order ID: " ++ order.id
    ++ "\n- Symbol: " ++ order.symbol
    ++ "\n- Side: " ++ order.side
    ++ "\n- Quantity: " ++ ratStr order.qty
    ++ "\n- Order Type: " ++ order.order_type
    ++ "\n- Order Class: " ++ order.order_class
    ++ "\n- Take Profit Price: " ++ format_currency take_profit_price
    ++ "\n- Stop Loss Price: " ++ format_currency stop_loss_price
    ++ "\n- Status: " ++ order.status
    ++ "\n- Submitted At: " ++ order.submitted_at
    ++ (if truthy limit_price then
          "\n- Entry Limit Price: " ++ format_currency (limit_price.getD 0)
        else "")
    ++ (if truthy stop_loss_limit_price then
          "\n- Stop Loss Limit Price: " ++ format_currency (stop_loss_limit_price.getD 0)
        else "")

/-- From orders.py handle_place_bracket_order: side conversion first, then the
limit-entry validation, the GTC-default time in force, both exit legs, and one
submit of a BRACKET-class limit or market request. -/
def handle_place_bracket_order (symbol0 side0 : String) (quantity : ℚ)
    (order_type0 : Option String) (limit_price : Option ℚ)
    (take_profit_price stop_loss_price : ℚ) (stop_loss_limit_price : Option ℚ)
    (time_in_force0 : Option String)
    (submitResult : Except APIError Order) : ToolResponse × List BrokerCall :=
  let symbol := pyUpper symbol0
  match get_order_side side0 with
  | .error msg => (.validationError ("Invalid parameters: " ++ msg), [])
  | .ok side =>
      let order_type := pyLower (order_type0.getD "market")
      if order_type == "limit" && !truthy limit_price then
        (.validationError "Invalid parameters: limit_price is required for limit orders", [])
      else
        let time_in_force := tif_from "gtc" time_in_force0
        let take_profit : TakeProfitRequest := { limit_price := some take_profit_price }
        let stop_loss : StopLossRequest :=
          if truthy stop_loss_limit_price then
            { stop_price := some stop_loss_price, limit_price := stop_loss_limit_price }
          else
            { stop_price := some stop_loss_price }
        let order_request : OrderRequest :=
          if order_type == "limit" then
            { symbol := symbol, qty := quantity, side := side, limit_price := limit_price,
              time_in_force := time_in_force, order_class := some OrderClass.BRACKET,
              take_profit := some take_profit, stop_loss := some stop_loss }
          else
            { symbol := symbol, qty := quantity, side := side,
              time_in_force := time_in_force, order_class := some OrderClass.BRACKET,
              take_profit := some take_profit, stop_loss := some stop_loss }
        match submitResult with
        | .error e =>
            (.apiError ("Error placing bracket order: " ++ e.message), [.submitOrder order_request])
        | .ok order =>
            (.success (bracket_success_response order take_profit_price stop_loss_price
                limit_price stop_loss_limit_price),
             [.submitOrder order_request])

/-- The success text of handle_place_oco_order. -/
def oco_success_response (order : Order) (take_profit_price stop_loss_price : ℚ)
    (stop_loss_limit_price : Option ℚ) : String :=
  "OCO order placed successfully:\n- Order ID: " ++ order.id
    ++ "\n- Symbol: " ++ order.symbol
    ++ "\n- Side: " ++ order.side
    ++ "\n- Quantity: " ++ ratStr order.qty
    ++ "\n- Order Class: " ++ order.order_class
    ++ "\n- Take Profit Price: " ++ format_currency take_profit_price
    ++ "\n- Stop Loss Price: " ++ format_currency stop_loss_price
    ++ "\n- Status: " ++ order.status
    ++ "\n- Submitted At: " ++ order.submitted_at
    ++ (if truthy stop_loss_limit_price then
          "\n- Stop Loss Limit Price: " ++ format_currency (stop_loss_limit_price.getD 0)
        else "")

/-- From orders.py handle_place_oco_order: no side argument and no validation;
always a SELL limit order at the take-profit price with OCO class and both
exit legs. -/
def handle_place_oco_order (symbol0 : String) (quantity : ℚ)
    (take_profit_price stop_loss_price : ℚ) (stop_loss_limit_price : Option ℚ)
    (time_in_force0 : Option String)
    (submitResult : Except APIError Order) : ToolResponse × List BrokerCall :=
  let symbol := pyUpper symbol0
  let time_in_force := tif_from "gtc" time_in_force0
  let take_profit : TakeProfitRequest := { limit_price := some take_profit_price }
  let stop_loss : StopLossRequest :=
    if truthy stop_loss_limit_price then
      { stop_price := some stop_loss_price, limit_price := stop_loss_limit_price }
    else
      { stop_price := some stop_loss_price }
  let order_request : OrderRequest :=
    { symbol := symbol, qty := quantity, side := OrderSide.SELL,
      limit_price := some take_profit_price, time_in_force := time_in_force,
      order_class := some OrderClass.OCO, take_profit := some take_profit,
      stop_loss := some stop_loss }
  match submitResult with
  | .error e => (.apiError ("Error placing OCO order: " ++ e.message), [.submitOrder order_request])
  | .ok order =>
      (.success (oco_success_response order take_profit_price stop_loss_price
          stop_loss_limit_price),
       [.submitOrder order_request])

/-- The exactly-one validation message of handle_place_oto_order. -/
def oto_exactly_one_message : String :=
  "Invalid parameters: Must provide exactly one of take_profit_price or stop_loss_price for OTO orders"

/-- The submit step shared by the branches of handle_place_oto_order. -/
def oto_submit (order_request : OrderRequest) (exit_description : String)
    (limit_price : Option ℚ) (submitResult : Except APIError Order) :
    ToolResponse × List BrokerCall :=
  match submitResult with
  | .error e => (.apiError ("Error placing OTO order: " ++ e.message), [.submitOrder order_request])
  | .ok order =>
      (.success ("OTO order placed successfully:\n- Order ID: " ++ order.id
        ++ "\n- Symbol: " ++ order.symbol
        ++ "\n- Side: " ++ order.side
        ++ "\n- Quantity: " ++ ratStr order.qty
        ++ "\n- Order Type: " ++ order.order_type
        ++ "\n- Order Class: " ++ order.order_class
        ++ "\n- " ++ exit_description
        ++ "\n- Status: " ++ order.status
        ++ "\n- Submitted At: " ++ order.submitted_at
        ++ (if truthy limit_price then
              "\n- Entry Limit Price: " ++ format_currency (limit_price.getD 0)
            else "")),
       [.submitOrder order_request])

/-- From orders.py handle_place_oto_order: side conversion, then the
exclusive-or check on the exit legs (`is None` tests), then the limit-entry
validation; the exit leg itself is then chosen by truthiness.  In the source,
a falsy take_profit_price with a missing stop_loss_price reaches
format_currency(None), whose TypeError lands in the generic except branch
before any client call; that path is the unexpectedError case below. -/
def handle_place_oto_order (symbol0 side0 : String) (quantity : ℚ)
    (order_type0 : Option String) (limit_price : Option ℚ)
    (take_profit_price stop_loss_price stop_loss_limit_price : Option ℚ)
    (time_in_force0 : Option String)
    (submitResult : Except APIError Order) : ToolResponse × List BrokerCall :=
  let symbol := pyUpper symbol0
  match get_order_side side0 with
  | .error msg => (.validationError ("Invalid parameters: " ++ msg), [])
  | .ok side =>
      let order_type := pyLower (order_type0.getD "market")
      if !(take_profit_price.isNone ^^ stop_loss_price.isNone) then
        (.validationError oto_exactly_one_message, [])
      else if order_type == "limit" && !truthy limit_price then
        (.validationError "Invalid parameters: limit_price is required for limit orders", [])
      else
        let time_in_force := tif_from "gtc" time_in_force0
        if truthy take_profit_price then
          let exit_order : TakeProfitRequest := { limit_price := take_profit_price }
          let exit_description :=
            "Take Profit Price: " ++ format_currency (take_profit_price.getD 0)
          let order_request : OrderRequest :=
            if order_type == "limit" then
              { symbol := symbol, qty := quantity, side := side,
                time_in_force := time_in_force, order_class := some OrderClass.OTO,
                take_profit := some exit_order, limit_price := limit_price }
            else
              { symbol := symbol, qty := quantity, side := side,
                time_in_force := time_in_force, order_class := some OrderClass.OTO,
                take_profit := some exit_order }
          oto_submit order_request exit_description limit_price submitResult
        else
          match stop_loss_price with
          | none =>
              (.unexpectedError
                "Unexpected error: unsupported format string passed to NoneType",
               [])
          | some slv =>
              let exit_order : StopLossRequest :=
                if truthy stop_loss_limit_price then
                  { stop_price := some slv, limit_price := stop_loss_limit_price }
                else
                  { stop_price := some slv }
              let exit_description :=
                if truthy stop_loss_limit_price then
                  "Stop Loss Price: " ++ format_currency slv ++ ", Limit: "
                    ++ format_currency (stop_loss_limit_price.getD 0)
                else
                  "Stop Loss Price: " ++ format_currency slv
              let order_request : OrderRequest :=
                if order_type == "limit" then
                  { symbol := symbol, qty := quantity, side := side,
                    time_in_force := time_in_force, order_class := some OrderClass.OTO,
                    stop_loss := some exit_order, limit_price := limit_price }
                else
                  { symbol := symbol, qty := quantity, side := side,
                    time_in_force := time_in_force, order_class := some OrderClass.OTO,
                    stop_loss := some exit_order }
              oto_submit order_request exit_description limit_price submitResult

/-- String rendering of the time-in-force enum in the trailing-stop response. -/
def tifStr : TimeInForce → String
  | TimeInForce.DAY => "TimeInForce.DAY"
  | TimeInForce.GTC => "TimeInForce.GTC"

/-- The success text of handle_place_trailing_stop_order. -/
def trailing_success_response (order : Order) (trail_description : String)
    (time_in_force : TimeInForce) : String :=
  "Trailing stop order placed successfully:\n- Order ID: " ++ order.id
    ++ "\n- Symbol: " ++ order.symbol
    ++ "\n- Side: " ++ order.side
    ++ "\n- Quantity: " ++ ratStr order.qty
    ++ "\n- Order Type: " ++ order.order_type
    ++ "\n- " ++ trail_description
    ++ "\n- Time in Force: " ++ tifStr time_in_force
    ++ "\n- Status: " ++ order.status
    ++ "\n- Submitted At: " ++ order.submitted_at

/-- From orders.py handle_place_trailing_stop_order: side conversion, lowercase
the trail type and reject anything but price and percent, DAY-default time in
force, then one request carrying either trail_price or trail_percent. -/
def handle_place_trailing_stop_order (symbol0 side0 : String) (quantity : ℚ)
    (trail_type0 : String) (trail_amount : ℚ) (time_in_force0 : Option String)
    (submitResult : Except APIError Order) : ToolResponse × List BrokerCall :=
  let symbol := pyUpper symbol0
  match get_order_side side0 with
  | .error msg => (.validationError ("Invalid parameters: " ++ msg), [])
  | .ok side =>
      let trail_type := pyLower trail_type0
      if trail_type != "price" && trail_type != "percent" then
        (.validationError "Invalid parameters: trail_type must be 'price' or 'percent'", [])
      else
        let time_in_force := tif_from "day" time_in_force0
        let order_request : OrderRequest :=
          if trail_type == "price" then
            { symbol := symbol, qty := quantity, side := side,
              time_in_force := time_in_force, trail_price := some trail_amount }
          else
            { symbol := symbol, qty := quantity, side := side,
              time_in_force := time_in_force, trail_percent := some trail_amount }
        let trail_description :=
          if trail_type == "price" then "Trail Amount: $" ++ ratStr trail_amount
          else "Trail Percentage: " ++ fmtPercent2 trail_amount
        match submitResult with
        | .error e =>
            (.apiError ("Error placing trailing stop order: " ++ e.message),
             [.submitOrder order_request])
        | .ok order =>
            (.success (trailing_success_response order trail_description time_in_force),
             [.submitOrder order_request])

end InvestPilot

namespace Config

open InvestPilot

/-- The environment variables read by the configuration loaders and the legacy
server; a missing variable is `none`. -/
structure Env where
  ALPACA_API_KEY : Option String := none
  API_KEY_ID : Option String := none
  ALPACA_SECRET_KEY : Option String := none
  API_SECRET_KEY : Option String := none
  LOG_LEVEL : Option String := none
deriving DecidableEq, Repr

/-- Python `a or b` over optional environment strings: None and the empty
string are falsy. -/
def orEnv (a b : Option String) : Option String :=
  match a with
  | some s => if s == "" then b else some s
  | none => b

/-- The Alpaca credential pair; the paper flag and base URL of the source are
loaded independently of the claims and omitted. -/
structure AlpacaConfig where
  api_key : String
  secret_key : String
deriving DecidableEq, Repr

/-- Python truthiness of the resolved credential value. -/
def credValue (v : Option String) : Option String :=
  match v with
  | some s => if s == "" then none else some s
  | none => none

/-- From src/src/config/settings.py load_alpaca_config: each credential falls
back across the two accepted variable names; a missing one raises
InvalidConfigurationError (modelled as `Except.error` with the message). -/
def load_alpaca_config (env : Env) : Except String AlpacaConfig :=
  let api_key := credValue (orEnv env.ALPACA_API_KEY env.API_KEY_ID)
  let secret_key := credValue (orEnv env.ALPACA_SECRET_KEY env.API_SECRET_KEY)
  match api_key with
  | none => .error "API key is required. Set one of: ALPACA_API_KEY, or API_KEY_ID"
  | some k =>
      match secret_key with
      | none => .error "Secret key is required. Set one of: ALPACA_SECRET_KEY, or API_SECRET_KEY"
      | some s => .ok { api_key := k, secret_key := s }

/-- The accepted log levels of ServerConfig. -/
def valid_levels : List String := ["DEBUG", "INFO", "WARNING", "ERROR", "CRITICAL"]

/-- The server configuration record. -/
structure ServerConfig where
  log_level : String
deriving DecidableEq, Repr

/-- From settings.py load_server_config plus the ServerConfig post-init
validation: LOG_LEVEL defaults to INFO and must be one of the known levels. -/
def load_server_config (env : Env) : Except String ServerConfig :=
  let log_level := env.LOG_LEVEL.getD "INFO"
  if valid_levels.contains (pyUpper log_level) then .ok { log_level := log_level }
  else .error ("Invalid log level: " ++ log_level)

end Config

namespace MainEntry

open InvestPilot

/-- From src/src/main.py get_alpaca_client: the brokerage client is created
lazily inside the first tool call; a configuration failure propagates as a
raised exception.  The SDK client construction itself is external and
modelled as succeeding once the configuration loads. -/
def get_alpaca_client (env : Config.Env) : Except String Config.AlpacaConfig :=
  Config.load_alpaca_config env

/-- From the main block of src/src/main.py: the process starts serving iff the
server configuration loads; the brokerage credentials are never touched at
startup. -/
def main_serves (env : Config.Env) : Bool :=
  match Config.load_server_config env with
  | .ok _ => true
  | .error _ => false

/-- From the place_market_order tool wrapper of src/src/main.py: the handler
converts every failure inside it to response text, so the wrapper returns that
text; only a client-initialization failure escapes the try block, and the
wrapper's except branch re-raises it to the protocol host. -/
def place_market_order_tool (clientInit : Except String Config.AlpacaConfig)
    (symbol side : String) (quantity : ℚ)
    (submitResult : Except APIError Order) : Except String String :=
  match clientInit with
  | .error e => .error e
  | .ok _ => .ok (handle_place_market_order symbol side quantity submitResult).1.text

end MainEntry

namespace AlpacaMcpServer

open InvestPilot

/-- From alpaca_mcp_server.py _get_order_side, textually identical to
src/src/core/utils.py get_order_side. -/
def _get_order_side (side : String) : Except String OrderSide :=
  get_order_side side

/-- From the import-time initialization of alpaca_mcp_server.py: this entry
point reads only API_KEY_ID and API_SECRET_KEY, and missing credentials raise
ValueError before the server can start serving.  (A failing connectivity
check against the brokerage also aborts startup; that step is external and
not modelled.) -/
def startup (env : Config.Env) : Except String Unit :=
  match Config.credValue env.API_KEY_ID, Config.credValue env.API_SECRET_KEY with
  | some _, some _ => .ok ()
  | _, _ => .error "Alpaca API credentials must be set in environment variables."

/-- The status_map dict of alpaca_mcp_server.py get_orders. -/
def status_map : List (String × QueryOrderStatus) :=
  [("open", QueryOrderStatus.OPEN), ("closed", QueryOrderStatus.CLOSED),
   ("all", QueryOrderStatus.ALL)]

/-- From alpaca_mcp_server.py get_orders: `status_map.get(status.lower(),
QueryOrderStatus.ALL)`, then the forwarded request.  The per-order text lines
are formatting only; the response models the no-orders message or the list
header. -/
def get_orders (status : String) (limit : ℕ)
    (ordersResult : Except APIError (List Order)) : String × List BrokerCall :=
  let query_status := (status_map.lookup (pyLower status)).getD QueryOrderStatus.ALL
  match ordersResult with
  | .error e => ("API error fetching orders: " ++ e.message, [.getOrders query_status limit])
  | .ok orders =>
      if orders.isEmpty then
        ("No " ++ status ++ " orders found.", [.getOrders query_status limit])
      else
        (status.capitalize ++ " Orders (Last " ++ toString orders.length ++ "):\n",
         [.getOrders query_status limit])

/-- From alpaca_mcp_server.py place_market_order: APIError and ValueError
share one except branch, so both failure texts carry the same prefix; the
symbol is not uppercased in this variant. -/
def place_market_order (symbol side : String) (quantity : ℚ)
    (submitResult : Except APIError Order) : String × List BrokerCall :=
  match _get_order_side side with
  | .error msg => ("Error placing market order: " ++ msg, [])
  | .ok order_side =>
      let order_data : OrderRequest :=
        { symbol := symbol, qty := quantity, side := order_side,
          time_in_force := TimeInForce.DAY }
      match submitResult with
      | .error e => ("Error placing market order: " ++ e.message, [.submitOrder order_data])
      | .ok order =>
          ("\nMarket Order Placed Successfully:\n--------------------------------\nOrder ID: "
            ++ order.id ++ "\nSymbol: " ++ order.symbol ++ "\nSide: " ++ order.side
            ++ "\nQuantity: " ++ ratStr order.qty ++ "\nType: " ++ order.order_type
            ++ "\nTime In Force: " ++ order.time_in_force ++ "\nStatus: " ++ order.status
            ++ "\n",
           [.submitOrder order_data])

/-- One entry of the list the SDK returns from cancel_orders: an order id and
an HTTP status code. -/
structure CancelOrderStatus where
  order_id : String
  status : ℤ
deriving DecidableEq, Repr

/-- From alpaca_mcp_server.py cancel_all_orders: counts the HTTP 2xx entries
of the cancellation report and answers a summary, with no special case for an
empty report. -/
def cancel_all_orders (cancelResult : Except APIError (List CancelOrderStatus)) :
    String × List BrokerCall :=
  match cancelResult with
  | .error e => ("API error canceling orders: " ++ e.message, [.cancelAllOrders])
  | .ok cancel_statuses =>
      let canceled_count :=
        cancel_statuses.countP (fun s => decide (200 ≤ s.status) && decide (s.status < 300))
      let failed_count := cancel_statuses.length - canceled_count
      ("Attempted to cancel all orders. " ++ toString canceled_count ++ " succeeded, "
        ++ toString failed_count ++ " failed.", [.cancelAllOrders])

/-- The no-action response of the legacy take_partial_profit. -/
def tpp_not_met_response (symbol : String) (profit_pct profit_threshold : ℚ) : String :=
  "Profit threshold not met for " ++ symbol ++ ". Current profit: "
    ++ fmtPercent2 profit_pct ++ ", Threshold: " ++ fmtPercent2 profit_threshold
    ++ ". No action taken."

/-- The close-submitted response of the legacy take_partial_profit. -/
def tpp_closed_response (symbol : String) (profit_pct close_percentage : ℚ)
    (order : Order) : String :=
  "Partial profit taken: Submitted order to close " ++ ratStr (close_percentage * 100)
    ++ "% of " ++ symbol ++ " position at " ++ fmtPercent2 profit_pct
    ++ " profit. Order ID: " ++ order.id

/-- From alpaca_mcp_server.py take_partial_profit: get_open_position raises an
APIError when there is no position, and the handler answers its own not-found
message when that error's text contains "position not found"; otherwise the
error is generic.  The threshold comparison is strict (profit_pct >
profit_threshold), and the close percentage is sent scaled to 0-100 (the
source wraps it as a decimal string).  float() of a missing unrealized_plpc
raises TypeError in the source, landing in the generic except branch. -/
def take_partial_profit (symbol : String)
    (profit_threshold0 close_percentage0 : Option ℚ)
    (positionResult : Except APIError Position)
    (closeResult : Except APIError Order) : String × List BrokerCall :=
  let profit_threshold := profit_threshold0.getD (Rat.mk' 1 5)
  let close_percentage := close_percentage0.getD (Rat.mk' 1 2)
  match positionResult with
  | .error e =>
      if containsSubstr (pyLower e.message) "position not found" then
        ("No open position found for " ++ symbol ++ ".", [.getOpenPosition symbol])
      else
        ("API error taking partial profit for " ++ symbol ++ ": " ++ e.message,
         [.getOpenPosition symbol])
  | .ok position =>
      match position.unrealized_plpc with
      | none =>
          ("An unexpected error occurred: float argument must not be None",
           [.getOpenPosition symbol])
      | some profit_pct =>
          if profit_threshold < profit_pct then
            match closeResult with
            | .error e =>
                ("API error taking partial profit for " ++ symbol ++ ": " ++ e.message,
                 [.getOpenPosition symbol, .closePosition symbol (close_percentage * 100)])
            | .ok order =>
                (tpp_closed_response symbol profit_pct close_percentage order,
                 [.getOpenPosition symbol, .closePosition symbol (close_percentage * 100)])
          else
            (tpp_not_met_response symbol profit_pct profit_threshold,
             [.getOpenPosition symbol])

end AlpacaMcpServer

namespace InvestPilot

/-- A concrete brokerage order record used in concrete instantiations. -/
def sampleOrder : Order :=
  { id := "order-1", symbol := "AAPL", qty := 5, side := "OrderSide.SELL",
    status := "accepted", order_type := "market", order_class := "simple",
    time_in_force := "TimeInForce.DAY", submitted_at := "2025-01-01 00:00:00",
    limit_price := 0 }

/-- The time-in-force values of the brokerage submissions in a call log. -/
def submittedTifs (calls : List BrokerCall) : List TimeInForce :=
  calls.filterMap (fun c =>
    match c with
    | .submitOrder req => some req.time_in_force
    | _ => none)

end InvestPilot

open InvestPilot

/-- C9: cancel_all_orders when the brokerage reports zero open orders: the
modular handler answers the normal response "No orders to cancel." (not an
error), and the legacy variant answers a normal zero-count summary. -/
theorem C9_cancel_all_empty :
    handle_cancel_all_orders (.ok []) = (.success "No orders to cancel.", [.cancelAllOrders]) ∧
    (handle_cancel_all_orders (.ok [])).1.isError = false ∧
    AlpacaMcpServer.cancel_all_orders (.ok [])
      = ("Attempted to cancel all orders. 0 succeeded, 0 failed.", [.cancelAllOrders]) := by
  refine ⟨rfl, rfl, rfl⟩

/-- C10: a get_orders status argument that is neither open nor closed after
lowercasing is mapped to the ALL filter and the query is still forwarded (the
response is not an error), in both the modular handler and the legacy tool. -/
theorem C10_unknown_status_all (status : String) (limit : ℕ) (orders : List Order)
    (h1 : pyLower status ≠ "open") (h2 : pyLower status ≠ "closed") :
    (handle_get_orders (some status) (some limit) (.ok orders)).2
      = [.getOrders QueryOrderStatus.ALL limit] ∧
    (handle_get_orders (some status) (some limit) (.ok orders)).1.isError = false ∧
    (AlpacaMcpServer.get_orders status limit (.ok orders)).2
      = [.getOrders QueryOrderStatus.ALL limit] := by
  refine ⟨?_, ?_, ?_⟩
  · cases orders <;> simp [handle_get_orders, h1, h2]
  · cases orders <;> simp [handle_get_orders, h1, h2, ToolResponse.isError]
  · have b1 : (pyLower status == "open") = false := beq_eq_false_iff_ne.mpr h1
    have b2 : (pyLower status == "closed") = false := beq_eq_false_iff_ne.mpr h2
    cases hb : pyLower status == "all" <;> cases orders <;>
      simp [AlpacaMcpServer.get_orders, AlpacaMcpServer.status_map, List.lookup, b1, b2, hb]

/-- C10 witness: the unrecognized status "bogus" is forwarded as ALL. -/
theorem C10_unknown_status_all_witness :
    (handle_get_orders (some "bogus") (some 10) (.ok [])).2
      = [.getOrders QueryOrderStatus.ALL 10] ∧
    (AlpacaMcpServer.get_orders "bogus" 10 (.ok [])).2
      = [.getOrders QueryOrderStatus.ALL 10] := by
  have h := C10_unknown_status_all "bogus" 10 [] (by decide) (by decide)
  exact ⟨h.1, h.2.2⟩

/-- C2: an order-placement call whose side is neither buy nor sell after
lowercasing answers the validation-error response carrying the invalid-side
message (which names the supplied side), and performs no brokerage call: the
market, limit, bracket, OTO and trailing-stop handlers, and the legacy
place_market_order tool (whose merged except branch labels the same message
with its API-error prefix). -/
theorem C2_invalid_side_rejected (side : String)
    (h1 : pyLower side ≠ "buy") (h2 : pyLower side ≠ "sell")
    (symbol tt : String) (q lp tp sl ta : ℚ) (olp osll otp osl2 : Option ℚ)
    (ot tif : Option String) (sr : Except APIError Order) :
    handle_place_market_order symbol side q sr
      = (.validationError ("Invalid parameters: " ++ invalid_side_message side), []) ∧
    handle_place_limit_order symbol side q lp sr
      = (.validationError ("Invalid parameters: " ++ invalid_side_message side), []) ∧
    handle_place_bracket_order symbol side q ot olp tp sl osll tif sr
      = (.validationError ("Invalid parameters: " ++ invalid_side_message side), []) ∧
    handle_place_oto_order symbol side q ot olp otp osl2 osll tif sr
      = (.validationError ("Invalid parameters: " ++ invalid_side_message side), []) ∧
    handle_place_trailing_stop_order symbol side q tt ta tif sr
      = (.validationError ("Invalid parameters: " ++ invalid_side_message side), []) ∧
    AlpacaMcpServer.place_market_order symbol side q sr
      = ("Error placing market order: " ++ invalid_side_message side, []) := by
  have hs : get_order_side side = .error (invalid_side_message side) := by
    simp [get_order_side, h1, h2]
  refine ⟨?_, ?_, ?_, ?_, ?_, ?_⟩ <;>
    simp [handle_place_market_order, handle_place_limit_order, handle_place_bracket_order,
      handle_place_oto_order, handle_place_trailing_stop_order,
      AlpacaMcpServer.place_market_order, AlpacaMcpServer._get_order_side, hs]

/-- C2 witness: the side "hold" is rejected with the message naming it, and no
submission is logged. -/
theorem C2_invalid_side_rejected_witness :
    handle_place_market_order "AAPL" "hold" 5 (.ok sampleOrder)
      = (.validationError ("Invalid parameters: " ++ invalid_side_message "hold"), []) ∧
    handle_place_trailing_stop_order "AAPL" "hold" 5 "percent" 1 none (.ok sampleOrder)
      = (.validationError ("Invalid parameters: " ++ invalid_side_message "hold"), []) := by
  have h := C2_invalid_side_rejected "hold" (by decide) (by decide) "AAPL" "percent"
    5 1 1 1 1 none none none none none none (.ok sampleOrder)
  exact ⟨h.1, h.2.2.2.2.1⟩

/-- C4: counterexample — a market-order call with quantity -5 is not rejected:
the handler builds the brokerage request carrying qty = -5 and submits it, and
the call reports success, so a negative quantity does not fail validation
before the request is built or submitted. -/
theorem C4_negative_quantity_counterexample :
    handle_place_market_order "AAPL" "buy" (-5) (.ok sampleOrder)
      = (.success (market_success_response sampleOrder),
         [.submitOrder { symbol := "AAPL", qty := -5, side := OrderSide.BUY,
                         time_in_force := TimeInForce.DAY }]) := by
  rfl

/-- C4 (amended): the handlers perform no quantity validation at all: for
every quantity, zero and negative included, a market-order call with a valid
side builds the brokerage request carrying exactly that quantity and submits
it, in both the modular handler and the legacy tool. -/
theorem C4_quantity_not_validated (symbol side : String) (q : ℚ) (s : OrderSide)
    (hs : get_order_side side = .ok s) (sr : Except APIError Order) :
    (handle_place_market_order symbol side q sr).2
      = [.submitOrder { symbol := pyUpper symbol, qty := q, side := s,
                        time_in_force := TimeInForce.DAY }] ∧
    (AlpacaMcpServer.place_market_order symbol side q sr).2
      = [.submitOrder { symbol := symbol, qty := q, side := s,
                        time_in_force := TimeInForce.DAY }] := by
  cases sr <;>
    exact ⟨by simp [handle_place_market_order, hs],
           by simp [AlpacaMcpServer.place_market_order, AlpacaMcpServer._get_order_side, hs]⟩

/-- C4 witness: quantity 0 is also passed through and submitted. -/
theorem C4_quantity_not_validated_witness :
    (handle_place_market_order "AAPL" "buy" 0 (.ok sampleOrder)).2
      = [.submitOrder { symbol := "AAPL", qty := 0, side := OrderSide.BUY,
                        time_in_force := TimeInForce.DAY }] :=
  (C4_quantity_not_validated "AAPL" "buy" 0 OrderSide.BUY rfl (.ok sampleOrder)).1

/-- C1: counterexample — in the legacy alpaca_mcp_server take_partial_profit,
a position whose unrealized_plpc (1, i.e. 100.00%) exactly equals the profit
threshold is NOT closed: the comparison is strict, so the call answers the
no-action report and submits no close-position request, contradicting the
claim that exact equality submits a close for close_percentage. -/
theorem C1_equality_counterexample :
    AlpacaMcpServer.take_partial_profit "AAPL" (some 1) (some 1)
        (.ok { symbol := "AAPL", qty := 10, unrealized_plpc := some 1 })
        (.ok sampleOrder)
      = ("Profit threshold not met for AAPL. Current profit: 100.00%, Threshold: 100.00%. No action taken.",
         [.getOpenPosition "AAPL"]) := by
  rfl

/-- C1 (amended): with an open position for the symbol, the modular handler
handle_take_partial_profit reports current versus required threshold and
takes no action when unrealized_plpc < profit_threshold, and submits a
close-position request for close_percentage — answering the order id and
status — when unrealized_plpc meets or exceeds the threshold, exact equality
included; the legacy alpaca_mcp_server variant instead compares strictly,
closing only when unrealized_plpc strictly exceeds the threshold and taking
no action at exact equality. -/
theorem C1_threshold_behavior (symbol : String) (threshold closePct : ℚ)
    (positions : List Position) (pos : Position) (order : Order)
    (hfind : findPosition positions (pyUpper symbol) = some pos) :
    (pos.unrealized_plpc.getD 0 < threshold →
      handle_take_partial_profit symbol (some threshold) (some closePct)
          (.ok positions) (.ok order)
        = (.success (tpp_below_threshold_response (pyUpper symbol)
              (pos.unrealized_plpc.getD 0) threshold), [.getAllPositions])) ∧
    (threshold ≤ pos.unrealized_plpc.getD 0 →
      handle_take_partial_profit symbol (some threshold) (some closePct)
          (.ok positions) (.ok order)
        = (.success (tpp_success_response (pyUpper symbol) (pos.unrealized_plpc.getD 0)
              threshold closePct order),
           [.getAllPositions, .closePosition (pyUpper symbol) closePct])) ∧
    (∀ plpc : ℚ, threshold < plpc →
      AlpacaMcpServer.take_partial_profit symbol (some threshold) (some closePct)
          (.ok { symbol := symbol, qty := pos.qty, unrealized_plpc := some plpc })
          (.ok order)
        = (AlpacaMcpServer.tpp_closed_response symbol plpc closePct order,
           [.getOpenPosition symbol, .closePosition symbol (closePct * 100)])) ∧
    (∀ plpc : ℚ, plpc ≤ threshold →
      AlpacaMcpServer.take_partial_profit symbol (some threshold) (some closePct)
          (.ok { symbol := symbol, qty := pos.qty, unrealized_plpc := some plpc })
          (.ok order)
        = (AlpacaMcpServer.tpp_not_met_response symbol plpc threshold,
           [.getOpenPosition symbol])) := by
  refine ⟨?_, ?_, ?_, ?_⟩
  · intro h
    simp [handle_take_partial_profit, hfind, h]
  · intro h
    have h' : ¬ (pos.unrealized_plpc.getD 0 < threshold) := not_lt.mpr h
    simp [handle_take_partial_profit, hfind, h']
  · intro plpc h
    simp [AlpacaMcpServer.take_partial_profit, h]
  · intro plpc h
    have h' : ¬ (threshold < plpc) := not_lt.mpr h
    simp [AlpacaMcpServer.take_partial_profit, h']

/-- C1 witness: the modular handler at exact equality (plpc = threshold = 1)
closes, and strictly below the threshold it reports and stops. -/
theorem C1_threshold_behavior_witness :
    handle_take_partial_profit "aapl" (some 1) (some 1)
        (.ok [{ symbol := "AAPL", qty := 10, unrealized_plpc := some 1 }]) (.ok sampleOrder)
      = (.success (tpp_success_response "AAPL" 1 1 1 sampleOrder),
         [.getAllPositions, .closePosition "AAPL" 1]) ∧
    handle_take_partial_profit "aapl" (some 1) (some 1)
        (.ok [{ symbol := "AAPL", qty := 10, unrealized_plpc := some 0 }]) (.ok sampleOrder)
      = (.success (tpp_below_threshold_response "AAPL" 0 1), [.getAllPositions]) := by
  constructor
  · exact (C1_threshold_behavior "aapl" 1 1
      [{ symbol := "AAPL", qty := 10, unrealized_plpc := some 1 }]
      { symbol := "AAPL", qty := 10, unrealized_plpc := some 1 } sampleOrder rfl).2.1
      (le_refl 1)
  · exact (C1_threshold_behavior "aapl" 1 1
      [{ symbol := "AAPL", qty := 10, unrealized_plpc := some 0 }]
      { symbol := "AAPL", qty := 10, unrealized_plpc := some 0 } sampleOrder rfl).1
      (by norm_num)

/-- C6: take_partial_profit on a symbol with no open position submits no
close order and answers a dedicated not-found message, distinguishable from
the generic API-error responses: the modular handler scans the fetched
position list and returns its not-found text as a normal response; the legacy
variant maps an APIError whose text contains "position not found" to its own
not-found message. -/
theorem C6_no_position_not_found (symbol : String) (thr cp : Option ℚ)
    (positions : List Position)
    (h : ∀ pos ∈ positions, pos.symbol ≠ pyUpper symbol)
    (closeRes : Except APIError Order) (e : APIError)
    (he : containsSubstr (pyLower e.message) "position not found" = true)
    (closeRes2 : Except APIError Order) :
    handle_take_partial_profit symbol thr cp (.ok positions) closeRes
      = (.success (tpp_not_found_response (pyUpper symbol)), [.getAllPositions]) ∧
    AlpacaMcpServer.take_partial_profit symbol thr cp (.error e) closeRes2
      = ("No open position found for " ++ symbol ++ ".", [.getOpenPosition symbol]) := by
  constructor
  · have hf : findPosition positions (pyUpper symbol) = none := by
      unfold findPosition
      rw [List.find?_eq_none]
      intro x hx
      simpa using h x hx
    simp [handle_take_partial_profit, hf]
  · simp [AlpacaMcpServer.take_partial_profit, he]

/-- C6 witness: a position list holding only AAPL answers not-found for msft,
and the legacy variant maps the matching error text to not-found. -/
theorem C6_no_position_not_found_witness :
    handle_take_partial_profit "msft" (some 1) (some 1)
        (.ok [{ symbol := "AAPL", qty := 10, unrealized_plpc := some 1 }]) (.ok sampleOrder)
      = (.success (tpp_not_found_response "MSFT"), [.getAllPositions]) ∧
    AlpacaMcpServer.take_partial_profit "msft" (some 1) (some 1)
        (.error { message := "alpaca: position not found (404)" }) (.ok sampleOrder)
      = ("No open position found for msft.", [.getOpenPosition "msft"]) :=
  C6_no_position_not_found "msft" (some 1) (some 1)
    [{ symbol := "AAPL", qty := 10, unrealized_plpc := some 1 }] (by decide)
    (.ok sampleOrder) { message := "alpaca: position not found (404)" } (by rfl)
    (.ok sampleOrder)

/-- C3: counterexample — an OTO call supplying exactly one exit leg (a
take-profit price only) still fails validation when order_type is limit and
no limit_price is given, so validation success is NOT equivalent to the
exactly-one condition: the call answers the limit-price validation error and
no order is submitted. -/
theorem C3_oto_exactly_one_counterexample :
    handle_place_oto_order "AAPL" "buy" 1 (some "limit") none (some 10) none none none
        (.ok sampleOrder)
      = (.validationError "Invalid parameters: limit_price is required for limit orders", []) := by
  rfl

/-- C3 (amended): the OTO exclusive-or rule: whenever both exit legs or
neither are supplied, the call returns a validation error and submits nothing
(for every side; with a valid side the message is the exactly-one text); when
exactly one leg is supplied, the entry passes the limit-price check and the
supplied take-profit price is nonzero, the order is submitted.  Exit-leg
exclusivity alone does not make validation succeed: the side and limit-price
checks still apply. -/
theorem C3_oto_exactly_one (symbol side : String) (q : ℚ) (ot tif : Option String)
    (olp osll : Option ℚ) (tp sl : ℚ) (s : OrderSide) (sr : Except APIError Order) :
    ((handle_place_oto_order symbol side q ot olp none none osll tif sr).2 = [] ∧
     (handle_place_oto_order symbol side q ot olp none none osll tif sr).1.isValidationError
       = true) ∧
    ((handle_place_oto_order symbol side q ot olp (some tp) (some sl) osll tif sr).2 = [] ∧
     (handle_place_oto_order symbol side q ot olp (some tp) (some sl) osll tif
         sr).1.isValidationError = true) ∧
    (get_order_side side = .ok s →
      handle_place_oto_order symbol side q ot olp none none osll tif sr
        = (.validationError oto_exactly_one_message, [])) ∧
    (get_order_side side = .ok s → tp ≠ 0 →
      (pyLower (ot.getD "market") == "limit" && !truthy olp) = false →
      ∃ req, (handle_place_oto_order symbol side q ot olp (some tp) none osll tif sr).2
        = [.submitOrder req]) := by
  refine ⟨?_, ?_, ?_, ?_⟩
  · cases hs : get_order_side side <;>
      simp [handle_place_oto_order, hs, ToolResponse.isValidationError]
  · cases hs : get_order_side side <;>
      simp [handle_place_oto_order, hs, ToolResponse.isValidationError]
  · intro hs
    simp [handle_place_oto_order, hs]
  · intro hs htp hlim
    have htr : truthy (some tp) = true := by simp [truthy, htp]
    by_cases hl : pyLower (ot.getD "market") == "limit"
    · have holp : truthy olp = true := by
        rcases Bool.and_eq_false_iff.mp hlim with h | h
        · exact absurd hl (by simp [h])
        · simpa using h
      cases sr <;>
        simp [handle_place_oto_order, hs, hl, htr, holp, oto_submit]
    · have hl' : (pyLower (ot.getD "market") == "limit") = false := by
        simpa using hl
      cases sr <;>
        simp [handle_place_oto_order, hs, hl', htr, oto_submit]

/-- C3 witness: both-absent answers the exactly-one validation error, and a
lone take-profit leg on a market-type OTO entry is submitted. -/
theorem C3_oto_exactly_one_witness :
    handle_place_oto_order "AAPL" "buy" 1 none none none none none none (.ok sampleOrder)
      = (.validationError oto_exactly_one_message, []) ∧
    (∃ req, (handle_place_oto_order "AAPL" "buy" 1 none none (some 10) none none none
        (.ok sampleOrder)).2 = [.submitOrder req]) := by
  have h := C3_oto_exactly_one "AAPL" "buy" 1 none none none none 10 10 OrderSide.BUY
    (.ok sampleOrder)
  exact ⟨h.2.2.1 rfl, h.2.2.2 rfl (by norm_num) (by rfl)⟩

/-- C7: counterexample — the trail_type value "PERCENT" is not one of the two
lowercase values "percent" and "price", yet the call is not rejected: the
handler lowercases the value first and submits a percentage-trail request, so
it is not true that every other trail_type value fails validation. -/
theorem C7_uppercase_trail_counterexample :
    handle_place_trailing_stop_order "AAPL" "sell" 10 "PERCENT" 1 none (.ok sampleOrder)
      = (.success (trailing_success_response sampleOrder "Trail Percentage: 100.00%"
           TimeInForce.DAY),
         [.submitOrder { symbol := "AAPL", qty := 10, side := OrderSide.SELL,
                         time_in_force := TimeInForce.DAY, trail_percent := some 1 }]) := by
  rfl

/-- C7 (amended): trail_type is lowercased before the check: a value whose
lowercase form is percent submits a request with trail_percent set and
trail_price unset; lowercase form price submits trail_price set and
trail_percent unset; a value whose lowercase form is neither is rejected with
the trail-type validation error and nothing is submitted. -/
theorem C7_trail_type (symbol side : String) (s : OrderSide)
    (hs : get_order_side side = .ok s) (q ta : ℚ) (tt : String) (tif : Option String)
    (sr : Except APIError Order) :
    (pyLower tt = "percent" →
      (handle_place_trailing_stop_order symbol side q tt ta tif sr).2
        = [.submitOrder
            { symbol := pyUpper symbol, qty := q, side := s,
              time_in_force := tif_from "day" tif, trail_percent := some ta }]) ∧
    (pyLower tt = "price" →
      (handle_place_trailing_stop_order symbol side q tt ta tif sr).2
        = [.submitOrder
            { symbol := pyUpper symbol, qty := q, side := s,
              time_in_force := tif_from "day" tif, trail_price := some ta }]) ∧
    (pyLower tt ≠ "percent" → pyLower tt ≠ "price" →
      handle_place_trailing_stop_order symbol side q tt ta tif sr
        = (.validationError "Invalid parameters: trail_type must be 'price' or 'percent'",
           [])) := by
  refine ⟨?_, ?_, ?_⟩
  · intro h
    cases sr <;> simp [handle_place_trailing_stop_order, hs, h]
  · intro h
    cases sr <;> simp [handle_place_trailing_stop_order, hs, h]
  · intro h1 h2
    have b1 : (pyLower tt != "price") = true := by simp [h2]
    have b2 : (pyLower tt != "percent") = true := by simp [h1]
    simp [handle_place_trailing_stop_order, hs, b1, b2]

/-- C7 witness: lowercase percent and price produce the two trail shapes, and
the trail type zzz is rejected. -/
theorem C7_trail_type_witness :
    (handle_place_trailing_stop_order "AAPL" "sell" 10 "percent" 1 none (.ok sampleOrder)).2
      = [.submitOrder
          { symbol := "AAPL", qty := 10, side := OrderSide.SELL,
            time_in_force := TimeInForce.DAY, trail_percent := some 1 }] ∧
    (handle_place_trailing_stop_order "AAPL" "sell" 10 "price" 2 none (.ok sampleOrder)).2
      = [.submitOrder
          { symbol := "AAPL", qty := 10, side := OrderSide.SELL,
            time_in_force := TimeInForce.DAY, trail_price := some 2 }] ∧
    handle_place_trailing_stop_order "AAPL" "sell" 10 "zzz" 1 none (.ok sampleOrder)
      = (.validationError "Invalid parameters: trail_type must be 'price' or 'percent'",
         []) := by
  have h1 := C7_trail_type "AAPL" "sell" OrderSide.SELL rfl 10 1 "percent" none (.ok sampleOrder)
  have h2 := C7_trail_type "AAPL" "sell" OrderSide.SELL rfl 10 2 "price" none (.ok sampleOrder)
  have h3 := C7_trail_type "AAPL" "sell" OrderSide.SELL rfl 10 1 "zzz" none (.ok sampleOrder)
  exact ⟨h1.1 rfl, h2.2.1 rfl, h3.2.2 (by decide) (by decide)⟩

/-- C8: counterexample — a bracket order supplied with time_in_force "Gtc"
(mixed case, not one of the two spellings gtc and GTC) still submits with
GTC, not DAY: the handler uppercases the value before comparing. -/
theorem C8_mixed_case_gtc_counterexample :
    (handle_place_bracket_order "AAPL" "buy" 1 none none 12 8 none (some "Gtc")
        (.ok sampleOrder)).2
      = [.submitOrder
          { symbol := "AAPL", qty := 1, side := OrderSide.BUY,
            time_in_force := TimeInForce.GTC, order_class := some OrderClass.BRACKET,
            take_profit := some { limit_price := some 12 },
            stop_loss := some { stop_price := some 8 } }] := by
  rfl

/-- C8 (amended): with no time_in_force argument the bracket, OCO and OTO
requests carry GTC while the trailing-stop request carries DAY, and the
simple market and limit requests always carry DAY; a supplied value is
uppercased and compared against GTC, so exactly the values whose uppercase
form is GTC yield GTC and every other value falls back to DAY. -/
theorem C8_time_in_force (symbol side : String) (s : OrderSide)
    (hs : get_order_side side = .ok s) (q lp tp sl ta : ℚ) (osll : Option ℚ)
    (htp : tp ≠ 0) (v : String) (sr : Except APIError Order) :
    submittedTifs (handle_place_bracket_order symbol side q none none tp sl osll none sr).2
      = [TimeInForce.GTC] ∧
    submittedTifs (handle_place_oco_order symbol q tp sl osll none sr).2
      = [TimeInForce.GTC] ∧
    submittedTifs (handle_place_oto_order symbol side q none none (some tp) none osll none
        sr).2 = [TimeInForce.GTC] ∧
    submittedTifs (handle_place_trailing_stop_order symbol side q "percent" ta none sr).2
      = [TimeInForce.DAY] ∧
    submittedTifs (handle_place_market_order symbol side q sr).2 = [TimeInForce.DAY] ∧
    submittedTifs (handle_place_limit_order symbol side q lp sr).2 = [TimeInForce.DAY] ∧
    submittedTifs (handle_place_bracket_order symbol side q none none tp sl osll (some v)
        sr).2
      = [if pyUpper v == "GTC" then TimeInForce.GTC else TimeInForce.DAY] ∧
    submittedTifs (handle_place_trailing_stop_order symbol side q "percent" ta (some v)
        sr).2
      = [if pyUpper v == "GTC" then TimeInForce.GTC else TimeInForce.DAY] := by
  have hgtc : tif_from "gtc" none = TimeInForce.GTC := by rfl
  have hday : tif_from "day" none = TimeInForce.DAY := by rfl
  have hv : ∀ d, tif_from d (some v) = if pyUpper v == "GTC" then TimeInForce.GTC
      else TimeInForce.DAY := by
    intro d
    rfl
  have htr : truthy (some tp) = true := by simp [truthy, htp]
  have hml : ¬ (pyLower "market" = "limit") := by decide
  have hpp : ¬ (pyLower "percent" = "price") := by decide
  have hpe : pyLower "percent" = "percent" := by rfl
  refine ⟨?_, ?_, ?_, ?_, ?_, ?_, ?_, ?_⟩
  · cases sr <;> simp [handle_place_bracket_order, hs, hgtc, hml, submittedTifs]
  · cases sr <;> simp [handle_place_oco_order, hgtc, submittedTifs]
  · cases sr <;>
      simp [handle_place_oto_order, hs, hgtc, hml, htr, oto_submit, submittedTifs]
  · cases sr <;>
      simp [handle_place_trailing_stop_order, hs, hday, hpp, hpe, submittedTifs]
  · cases sr <;> simp [handle_place_market_order, hs, submittedTifs]
  · cases sr <;> simp [handle_place_limit_order, hs, submittedTifs]
  · cases sr <;> simp [handle_place_bracket_order, hs, hv, hml, submittedTifs]
  · cases sr <;>
      simp [handle_place_trailing_stop_order, hs, hv, hpp, hpe, submittedTifs]

/-- C8 witness: a bracket order with no time_in_force submits GTC; a
trailing-stop with the unrecognized value ioc submits DAY. -/
theorem C8_time_in_force_witness :
    submittedTifs (handle_place_bracket_order "AAPL" "buy" 1 none none 12 8 none none
        (.ok sampleOrder)).2 = [TimeInForce.GTC] ∧
    submittedTifs (handle_place_trailing_stop_order "AAPL" "buy" 1 "percent" 1 (some "ioc")
        (.ok sampleOrder)).2 = [TimeInForce.DAY] := by
  have h := C8_time_in_force "AAPL" "buy" OrderSide.BUY rfl 1 1 12 8 1 none
    (by norm_num) "ioc" (.ok sampleOrder)
  exact ⟨h.1, h.2.2.2.2.2.2.2⟩

/-- The environment with no variables set, as a process launched with no
Alpaca credentials sees it. -/
def envNoCreds : Config.Env := {}

/-- C5: counterexample — with no credentials in the environment, the FastMCP
v2 entry point still serves (its startup only loads the server
configuration), and a place_market_order call then re-raises the lazy
client-initialization failure to the protocol host instead of answering a
response string; so a missing-credentials failure neither prevents serving
nor is converted to a normal response. -/
theorem C5_lazy_init_counterexample :
    MainEntry.main_serves envNoCreds = true ∧
    MainEntry.place_market_order_tool (MainEntry.get_alpaca_client envNoCreds)
        "AAPL" "buy" 1 (.ok sampleOrder)
      = .error "API key is required. Set one of: ALPACA_API_KEY, or API_KEY_ID" := by
  exact ⟨rfl, rfl⟩

/-- C5 (amended): once the brokerage client is initialized, every outcome of
the market-order tool — validation failure, brokerage API failure or success
— comes back to the protocol host as a normal response string, never as a
raise; but the client is initialized lazily inside each tool call, so an
initialization failure (such as missing credentials) is re-raised to the host
on every call while the process keeps serving; only in the legacy entry point
do missing credentials abort at startup (and there, reading only API_KEY_ID
and API_SECRET_KEY). -/
theorem C5_error_conversion (cfg : Config.AlpacaConfig) (symbol side : String)
    (q : ℚ) (sr : Except APIError Order) (e : String) (env : Config.Env) :
    (∃ s, MainEntry.place_market_order_tool (.ok cfg) symbol side q sr = .ok s) ∧
    MainEntry.place_market_order_tool (.error e) symbol side q sr = .error e ∧
    (env.API_KEY_ID = none →
      AlpacaMcpServer.startup env
        = .error "Alpaca API credentials must be set in environment variables.") := by
  refine ⟨⟨_, rfl⟩, rfl, ?_⟩
  intro h
  cases hsk : env.API_SECRET_KEY <;>
    simp [AlpacaMcpServer.startup, Config.credValue, h, hsk]

/-- C5 witness: with valid credentials in scope, an invalid-side tool call is
answered as a normal response string, and the legacy entry point refuses to
start without credentials. -/
theorem C5_error_conversion_witness :
    (∃ s, MainEntry.place_market_order_tool (.ok { api_key := "k", secret_key := "s" })
        "AAPL" "hold" 1 (.ok sampleOrder) = .ok s) ∧
    AlpacaMcpServer.startup envNoCreds
      = .error "Alpaca API credentials must be set in environment variables." := by
  have h := C5_error_conversion { api_key := "k", secret_key := "s" } "AAPL" "hold" 1
    (.ok sampleOrder) "e" envNoCreds
  exact ⟨h.1, h.2.2 rfl⟩
